import Mathlib

/-
Verification of the procedural-geometry scripts of the blender-cli repository:
a revolved bottle profile, an emboss region edit, material socket probing, a
seeded tree-variant generator, a mesh-only selection filter, a format-fallback
export pipeline, and the export diagnostic harness.  Geometry is embedded over
the rationals.
-/

namespace BlenderCli

/-! ## Basic 3D vectors over the rationals -/

abbrev Vec3 := ℚ × ℚ × ℚ

def vz (v : Vec3) : ℚ := v.2.2

def vadd (a b : Vec3) : Vec3 := (a.1 + b.1, a.2.1 + b.2.1, a.2.2 + b.2.2)

def vsub (a b : Vec3) : Vec3 := (a.1 - b.1, a.2.1 - b.2.1, a.2.2 - b.2.2)

def vsmul (q : ℚ) (a : Vec3) : Vec3 := (q * a.1, q * a.2.1, q * a.2.2)

/-! ## C1: profile curve and revolution sweep

`profile_verts` is the 17-point bottle profile of
`scripts/maroon_bottle_fixed.py` (pairs of (radius, height), bottom to top). -/

def profile_verts : List (ℚ × ℚ) :=
  [(0.000, 0.000),
   (0.034, 0.000),
   (0.036, 0.005),
   (0.035, 0.012),
   (0.036, 0.030),
   (0.035, 0.055),
   (0.036, 0.080),
   (0.036, 0.095),
   (0.034, 0.110),
   (0.033, 0.135),
   (0.028, 0.165),
   (0.020, 0.195),
   (0.017, 0.215),
   (0.017, 0.225),
   (0.018, 0.228),
   (0.016, 0.232),
   (0.000, 0.232)]

/-- The 15 interior (non-pole) points of the bottle profile. -/
def bottleMid : List (ℚ × ℚ) :=
  [(0.034, 0.000),
   (0.036, 0.005),
   (0.035, 0.012),
   (0.036, 0.030),
   (0.035, 0.055),
   (0.036, 0.080),
   (0.036, 0.095),
   (0.034, 0.110),
   (0.033, 0.135),
   (0.028, 0.165),
   (0.020, 0.195),
   (0.017, 0.215),
   (0.017, 0.225),
   (0.018, 0.228),
   (0.016, 0.232)]

/-- A vertex of the swept mesh, in cylindrical form: its radius, its angular
step index around the axis, and its height.  The script sets equal angular
increments, so the step index determines the angle. -/
structure SweptVert where
  radius : ℚ
  angIx : ℕ
  height : ℚ
deriving DecidableEq

/-- Modelled from the spec: the revolution sweep itself is performed by the
host application's screw modifier (`screw` in maroon_bottle_fixed.py only
configures it), which is not code of this repository.  Per the spec, each
non-pole profile point yields one ring of `steps` vertices, and each
zero-radius point collapses its ring to a single pole vertex shared across all
angular steps. -/
def sweptVerts (ps : List (ℚ × ℚ)) (steps : ℕ) : List SweptVert :=
  ps.flatMap (fun p =>
    if p.1 = 0 then [⟨0, 0, p.2⟩]
    else (List.range steps).map (fun k => ⟨p.1, k, p.2⟩))

/-- Number of zero-radius (pole) points of a profile. -/
def poleCount (ps : List (ℚ × ℚ)) : ℕ :=
  (ps.filter (fun p => decide (p.1 = 0))).length

/-! ## C2: emboss face selection

`emboss_faces` embeds the comprehension of maroon_bottle_fixed.py line 86:
faces all of whose vertices satisfy `v.co.z < zmax and v.co.z > zmin`.
A face is represented by the coordinates of its vertices. -/

def emboss_faces (faces : List (List Vec3)) (zmin zmax : ℚ) : List (List Vec3) :=
  faces.filter (fun f => f.all (fun v => decide (vz v < zmax) && decide (zmin < vz v)))

/-- The bottle script's concrete call: zmin = 0.010, zmax = 0.096. -/
def emboss_faces_bottle (faces : List (List Vec3)) : List (List Vec3) :=
  emboss_faces faces 0.010 0.096

/-- Stated from the spec's words, for comparison with `emboss_faces`: the face
set whose every vertex height lies in the half-open interval [zmin, zmax),
inclusive at the lower bound. -/
def halfOpenFaces (faces : List (List Vec3)) (zmin zmax : ℚ) : List (List Vec3) :=
  faces.filter (fun f => f.all (fun v => decide (zmin ≤ vz v) && decide (vz v < zmax)))

/-- A face with a vertex exactly at the lower bound 0.010. -/
def seamFace : List Vec3 := [(0, 0, 0.010), (1, 0, 0.010), (1, 1, 0.050)]

/-! ## C3: indexed mesh and the emboss step

A mesh holds vertex positions and faces as ordered vertex-index loops, as in
the data model.  The emboss step mirrors the bottle script: select the faces
in the height band, subdivide every edge of the selected faces (cut vertices
are inserted into the loop of every face containing such an edge, since faces
share edges), then inset and extrude each selected face. -/

structure Mesh where
  verts : List Vec3
  faces : List (List ℕ)
deriving DecidableEq

/-- Height of vertex `i` of the mesh (faces reference valid indices, so the
default is never consulted on well-formed input). -/
def vertZ (m : Mesh) (i : ℕ) : ℚ := vz (m.verts.getD i (0, 0, 0))

/-- The selection predicate of maroon_bottle_fixed.py line 86, on an indexed
face: every vertex height strictly between the bounds. -/
def selP (m : Mesh) (zmin zmax : ℚ) (f : List ℕ) : Bool :=
  f.all (fun i => decide (vertZ m i < zmax) && decide (zmin < vertZ m i))

def selFaces (m : Mesh) (zmin zmax : ℚ) : List (List ℕ) :=
  m.faces.filter (selP m zmin zmax)

def nonselFaces (m : Mesh) (zmin zmax : ℚ) : List (List ℕ) :=
  m.faces.filter (fun f => !(selP m zmin zmax f))

/-- The cyclic edge list of a face loop: consecutive pairs, wrapping around. -/
def faceEdges (f : List ℕ) : List (ℕ × ℕ) := f.zip (f.rotate 1)

/-- Undirected edge, normalized so the smaller index comes first. -/
def normE (e : ℕ × ℕ) : ℕ × ℕ := if e.1 ≤ e.2 then e else (e.2, e.1)

/-- The deduplicated set of (normalized) edges of the selected faces: the
`edges=list({e for f in emboss_faces for e in f.edges})` argument of
`bmesh.ops.subdivide_edges`. -/
def selEdges (m : Mesh) (zmin zmax : ℚ) : List (ℕ × ℕ) :=
  (((selFaces m zmin zmax).flatMap faceEdges).map normE).dedup

/-- Positions of the `c` cut vertices of one subdivided edge, at equal
parameters along the edge. -/
def cutPoints (m : Mesh) (c : ℕ) (e : ℕ × ℕ) : List Vec3 :=
  (List.range c).map (fun k =>
    vadd (m.verts.getD e.1 (0, 0, 0))
      (vsmul (((k : ℚ) + 1) / ((c : ℚ) + 1))
        (vsub (m.verts.getD e.2 (0, 0, 0)) (m.verts.getD e.1 (0, 0, 0)))))

/-- Indices of the cut vertices to insert after vertex `a` when the loop
traverses edge (a, b); cut vertices of the edges in `E` are appended after the
first `nV` original vertices, `c` per edge in the order of `E`. -/
def cutIdx (E : List (ℕ × ℕ)) (c nV : ℕ) (a b : ℕ) : List ℕ :=
  match E.findIdx? (fun e => decide (e = normE (a, b))) with
  | none => []
  | some i =>
    if a ≤ b then (List.range c).map (fun k => nV + c * i + k)
    else ((List.range c).map (fun k => nV + c * i + k)).reverse

/-- A face loop after edge subdivision: each traversed edge that belongs to
`E` receives its cut vertices in traversal order. -/
def subdivFace (E : List (ℕ × ℕ)) (c nV : ℕ) (f : List ℕ) : List ℕ :=
  (f.zip (f.rotate 1)).flatMap (fun ab => ab.1 :: cutIdx E c nV ab.1 ab.2)

def centroid (vs : List Vec3) : Vec3 :=
  vsmul (1 / (vs.length : ℚ)) (vs.foldl vadd (0, 0, 0))

def cross (a b : Vec3) : Vec3 :=
  (a.2.1 * b.2.2 - a.2.2 * b.2.1,
   a.2.2 * b.1 - a.1 * b.2.2,
   a.1 * b.2.1 - a.2.1 * b.1)

/-- An (unnormalized) normal of a face from its first three vertices. -/
def faceNormal (vs : List Vec3) : Vec3 :=
  match vs with
  | a :: b :: c :: _ => cross (vsub b a) (vsub c a)
  | _ => (0, 0, 0)

/-- Modelled from the spec: one step of `bmesh.ops.inset_region` with depth,
applied to one (subdivided) selected face.  The inner ring is pulled toward
the face centroid by the thickness and offset along the face normal by the
depth (thickness acts as a fraction toward the centroid and depth scales the
unnormalized normal, since exact unit-length offsets are irrational; the
choice only moves the freshly created vertices, which is immaterial to which
pre-existing vertices and faces change).  New vertices are appended; the face
is replaced by its ring of side quads plus the inner face. -/
def insetOne (t d : ℚ) (acc : List Vec3 × List (List ℕ)) (sf : List ℕ) :
    List Vec3 × List (List ℕ) :=
  let vs := sf.map (fun i => acc.1.getD i (0, 0, 0))
  let cen := centroid vs
  let nrm := faceNormal vs
  let inner := vs.map (fun v => vadd (vadd v (vsmul t (vsub cen v))) (vsmul d nrm))
  let base := acc.1.length
  let sides := (List.range sf.length).map (fun k =>
    [sf.getD k 0, sf.getD ((k + 1) % sf.length) 0,
     base + (k + 1) % sf.length, base + k])
  (acc.1 ++ inner, acc.2 ++ sides ++ [(List.range sf.length).map (fun k => base + k)])

/-- Modelled from the spec: the emboss step of maroon_bottle_fixed.py lines
90-107 (`bmesh.ops.subdivide_edges` on the selected faces' edges followed by
`bmesh.ops.inset_region` on the selected faces; the bmesh operators are host
code, not part of this repository; the interior grid-fill refinement of the
selected faces is elided, as it creates vertices and faces only inside the
selected region).  If no face is selected the step is skipped.  Resulting
faces are ordered: subdivided non-selected faces first, then the faces
produced from the selected region. -/
def embossStep (m : Mesh) (zmin zmax : ℚ) (c : ℕ) (t d : ℚ) : Mesh :=
  if selFaces m zmin zmax = [] then m
  else
    let E := selEdges m zmin zmax
    let nV := m.verts.length
    let verts1 := m.verts ++ E.flatMap (cutPoints m c)
    let nonselF := (nonselFaces m zmin zmax).map (subdivFace E c nV)
    let selSub := (selFaces m zmin zmax).map (subdivFace E c nV)
    let res := selSub.foldl (insetOne t d) (verts1, [])
    { verts := res.1, faces := nonselF ++ res.2 }

/-- A small mesh (the bottle scenario scaled by 1000, so bounds 10 and 96
stand for 0.010 and 0.096): one face inside the emboss band, one straddling
neighbour sharing the edge (1, 2) with it, and one far-away face sharing
nothing. -/
def demoMesh : Mesh :=
  { verts := [(0, 0, 50), (1, 0, 50), (1, 1, 50), (0, 1, 50),
              (2, 0, 200), (2, 1, 200),
              (5, 5, 500), (6, 5, 500), (6, 6, 500), (5, 6, 500)]
    faces := [[0, 1, 2, 3], [1, 4, 5, 2], [6, 7, 8, 9]] }

/-! ## C4, C5, C10: the tree variant generator -/

/-- Model of the Python global `random` module state: `random.seed(h)` replaces
the state by one derived from `h` alone.  create_tree never draws from it. -/
structure RandomState where
  seed : ℤ
deriving DecidableEq

/-- Modelled from the spec: stand-in for Python's stable `hash` of the
location tuple (deterministic for numbers); its exact value is never consumed
because create_tree draws nothing after seeding. -/
def hashLoc (loc : Vec3) : ℤ :=
  loc.1.num + 31 * loc.2.1.num + 961 * loc.2.2.num

inductive LeafMat | leafGreen | leafDark
deriving DecidableEq

inductive BarkMat | barkDark | barkLight
deriving DecidableEq

/-- The trunk produced by create_trunk: a cone at `location` with the given
height and base radius, top radius = radius × taper, rotated by `curve` about
Z.  create_tree always uses the default taper 0.6 and curve 0.1. -/
structure Trunk where
  location : Vec3
  height : ℚ
  radius : ℚ
  taper : ℚ
  curve : ℚ
  bark : BarkMat
deriving DecidableEq

/-- One foliage clump from create_foliage_clump: a sphere whose centre is the
base point displaced horizontally by `offsetMag` at polar angle `angleDeg`
degrees (the code computes the equivalent cartesian offset via cos/sin), with
a cloud displacement of strength radius × 0.15. -/
structure Clump where
  baseX : ℚ
  baseY : ℚ
  z : ℚ
  angleDeg : ℚ
  offsetMag : ℚ
  radius : ℚ
  dispStrength : ℚ
  mat : LeafMat
deriving DecidableEq

structure Tree where
  trunk : Trunk
  clumps : List Clump
deriving DecidableEq

structure TreeParams where
  trunkH : ℚ
  trunkR : ℚ
  foliageH : ℚ
  foliageR : ℚ
  levels : ℕ
  leaf : LeafMat
  bark : BarkMat

/-- The per-type parameter table of create_tree (tree_asset_pack_blenderlab.py
lines 152-190); any type other than 1-4 falls to the type-5 branch. -/
def treeTable (tree_type : ℕ) (scale : ℚ) : TreeParams :=
  if tree_type = 1 then
    ⟨4.5 * scale, 0.3 * scale, 5.0 * scale, 1.2 * scale, 4, .leafDark, .barkDark⟩
  else if tree_type = 2 then
    ⟨3.5 * scale, 0.4 * scale, 3.0 * scale, 2.0 * scale, 3, .leafGreen, .barkLight⟩
  else if tree_type = 3 then
    ⟨5.0 * scale, 0.15 * scale, 4.5 * scale, 1.0 * scale, 5, .leafGreen, .barkLight⟩
  else if tree_type = 4 then
    ⟨3.0 * scale, 0.5 * scale, 2.5 * scale, 2.5 * scale, 2, .leafDark, .barkLight⟩
  else
    ⟨4.0 * scale, 0.35 * scale, 2.0 * scale, 1.8 * scale, 3, .leafGreen, .barkDark⟩

/-- One iteration of the canopy loop of create_tree (lines 204-226): the main
clump on the trunk axis at this level's height, then three side clumps at
i × 120 degrees with horizontal offset foliage_radius × 0.7; the canopy
starts at location z + trunk height × 0.5 and bands are foliage height /
levels apart. -/
def canopyLevel (location : Vec3) (p : TreeParams) (level : ℕ) : List Clump :=
  let hOff := location.2.2 + p.trunkH * 0.5 + (level : ℚ) * p.foliageH / (p.levels : ℚ)
  let mainR := p.foliageR * (1 - (level : ℚ) * 0.1)
  let sideR := p.foliageR * 0.6 * (1 - (level : ℚ) * 0.15)
  (⟨location.1, location.2.1, hOff, 0, 0, mainR, mainR * 0.15, p.leaf⟩ : Clump)
    :: (List.range 3).map (fun (i : ℕ) =>
      (⟨location.1, location.2.1, hOff, (i : ℚ) * 120, p.foliageR * 0.7,
        sideR, sideR * 0.15, p.leaf⟩ : Clump))

/-- create_tree of tree_asset_pack_blenderlab.py lines 143-228, with the
global random state threaded explicitly: the state is reseeded from
hash(location) and never drawn from afterwards. -/
def create_tree (tree_type : ℕ) (location : Vec3) (scale : ℚ)
    (st : RandomState) : Tree × RandomState :=
  let st1 : RandomState := ⟨hashLoc location⟩
  let p := treeTable tree_type scale
  let trunk : Trunk := ⟨location, p.trunkH, p.trunkR, 0.6, 0.1, p.bark⟩
  let clumps := (List.range p.levels).flatMap (canopyLevel location p)
  (⟨trunk, clumps⟩, st1)

/-- A concrete generated tree: type 1 at the origin, scale 1. -/
def demoTree : Tree := (create_tree 1 (0, 0, 0) 1 ⟨0⟩).1

/-- A default clump, used only as the out-of-range default of list lookups. -/
def cdef : Clump := ⟨0, 0, 0, 0, 0, 0, 0, .leafGreen⟩

/-- Radius of the main (on-axis) clump of canopy level `l`: each level
contributes the block [main, side 0, side 1, side 2]. -/
def mainRadius (t : Tree) (l : ℕ) : ℚ := (t.clumps.getD (4 * l) cdef).radius

def translateClump (loc : Vec3) (c : Clump) : Clump :=
  { c with baseX := c.baseX + loc.1, baseY := c.baseY + loc.2.1, z := c.z + loc.2.2 }

def translateTree (loc : Vec3) (t : Tree) : Tree :=
  { trunk := { t.trunk with location := vadd t.trunk.location loc }
    clumps := t.clumps.map (translateClump loc) }

/-! ## C6: the export pipeline -/

structure Artifact where
  fmt : String
  path : String
  size : ℕ
deriving DecidableEq

inductive ExportOutcome
  | succeeded (a : Artifact) (failures : List (String × String))
  | exhausted (failures : List (String × String))
deriving DecidableEq

/-- Modelled from the spec: the format-fallback export pipeline runs in the
BlenderLab worker, outside this repository (src only holds the single-format
smoke test of test_export.py).  Candidate formats are attempted in order;
each per-format failure is caught and recorded and the pipeline advances; the
first success terminates with that artifact; if every candidate fails the
pipeline terminates with the aggregated per-format errors, in candidate
order. -/
def runExportPipeline (attempt : String → Except String Artifact) :
    List String → ExportOutcome
  | [] => .exhausted []
  | f :: rest =>
    match attempt f with
    | .ok a => .succeeded a []
    | .error e =>
      match runExportPipeline attempt rest with
      | .succeeded a errs => .succeeded a ((f, e) :: errs)
      | .exhausted errs => .exhausted ((f, e) :: errs)

/-- A simulated attempt function: the first two candidate formats fail, any
other succeeds. -/
def demoAttempt : String → Except String Artifact := fun f =>
  if f = "GLB" then .error ("glb boom")
  else if f = "FBX" then .error ("fbx boom")
  else .ok ⟨f, "/tmp/out", 10⟩

/-! ## C7: the selection filter -/

inductive ObjKind | mesh | light | camera | other
deriving DecidableEq

structure SceneObj where
  name : String
  kind : ObjKind
  selected : Bool
deriving DecidableEq

/-- First loop of the selection block (maroon_bottle_fixed.py lines 266-267,
house_blenderlab.py lines 104-105): deselect every object. -/
def deselect_all (s : List SceneObj) : List SceneObj :=
  s.map (fun o => { o with selected := false })

/-- Second loop (lines 270-272 resp. 107-109): select each object whose type
is MESH. -/
def select_meshes (s : List SceneObj) : List SceneObj :=
  s.map (fun o => if o.kind = ObjKind.mesh then { o with selected := true } else o)

def export_selection (s : List SceneObj) : List SceneObj :=
  select_meshes (deselect_all s)

def selectedObjs (s : List SceneObj) : List SceneObj :=
  s.filter (fun o => o.selected)

def meshTally (s : List SceneObj) : ℕ :=
  (s.filter (fun o => decide (o.kind = ObjKind.mesh))).length

/-! ## C8: material socket probing -/

/-- The compatibility probe `for key in (a, b): if key in bsdf.inputs: ...`:
the first of the candidate socket names that exists. -/
def probeSocket (avail : List String) (keys : List String) : Option String :=
  keys.find? (fun k => avail.contains k)

/-- A built node graph: created nodes, links, and the Principled BSDF input
sockets that received a value, in program order. -/
structure MaterialNodes where
  nodes : List String
  links : List (String × String)
  setSockets : List String
deriving DecidableEq

def plasticNodes : List String :=
  ["ShaderNodeOutputMaterial", "ShaderNodeBsdfPrincipled", "ShaderNodeTexCoord",
   "ShaderNodeMapping", "ShaderNodeTexWave", "ShaderNodeBump"]

def plasticLinks : List (String × String) :=
  [("TexCoord.Object", "Mapping.Vector"), ("Mapping.Vector", "Wave.Vector"),
   ("Wave.Color", "Bump.Height"), ("Bump.Normal", "Bsdf.Normal"),
   ("Bsdf.BSDF", "Output.Surface")]

/-- make_plastic_material of maroon_bottle_fixed.py lines 113-159, as a
function of which BSDF input sockets the host version exposes: Base Color,
Roughness and IOR are always set; the transmission value goes to the first
available of the probed names, or is skipped; the node graph is built
regardless. -/
def make_plastic_material (avail : List String) : MaterialNodes :=
  { nodes := plasticNodes
    links := plasticLinks
    setSockets := ["Base Color", "Roughness", "IOR"]
      ++ (match probeSocket avail ["Transmission Weight", "Transmission"] with
          | some k => [k]
          | none => []) }

/-- create_leaf_material of tree_asset_pack_blenderlab.py lines 62-85: the
subsurface weight goes to the first available of the probed names, or is
skipped; the graph is completed regardless. -/
def create_leaf_material (avail : List String) : MaterialNodes :=
  { nodes := ["ShaderNodeOutputMaterial", "ShaderNodeBsdfPrincipled"]
    links := [("Bsdf.BSDF", "Output.Surface")]
    setSockets := ["Base Color", "Roughness"]
      ++ (match probeSocket avail ["Subsurface Weight", "Subsurface"] with
          | some k => [k]
          | none => []) }

/-! ## C9: the export diagnostic harness -/

/-- The observations test_export.py makes of its environment: how many mesh
objects exist after scene setup, whether the gltf export operator raised,
whether the output file exists afterwards, and its byte size. -/
structure DiagEnv where
  meshTotal : ℕ
  exportRaises : Bool
  fileCreated : Bool
  fileSize : ℕ
deriving DecidableEq

/-- Process exit code of test_export.py as a function of the environment:
no mesh objects → sys.exit(1); export exception → sys.exit(1); output file
missing → sys.exit(1); otherwise the script prints the byte size and runs to
completion (exit 0).  The byte size is reported but never checked. -/
def diagnosticExit (env : DiagEnv) : ℕ :=
  if env.meshTotal = 0 then 1
  else if env.exportRaises then 1
  else if env.fileCreated then 0
  else 1

/-- A small scene: two meshes and a light, like the bottle scene. -/
def demoScene : List SceneObj :=
  [⟨"BottleBody", .mesh, false⟩, ⟨"BottleCap", .mesh, true⟩, ⟨"KeyLight", .light, false⟩]

/-- Extra non-mesh objects added to the scene. -/
def demoExtra : List SceneObj :=
  [⟨"BottleCam", .camera, false⟩, ⟨"FillLight", .light, true⟩]

/-! ## Theorems -/

/-- C4: the tree variant generator is deterministic: the pseudo-random seed it
installs is derived solely from the stable hash of the location argument, and
the geometry produced by two calls with identical (tree_type, location, scale)
arguments is identical whatever the incoming global random state is — there
is no dependence on hidden global mutable randomness, since the generator
never draws from the state after seeding it. -/
theorem create_tree_deterministic (tree_type : ℕ) (location : Vec3) (scale : ℚ)
    (s1 s2 : RandomState) :
    (create_tree tree_type location scale s1).1
        = (create_tree tree_type location scale s2).1
    ∧ (create_tree tree_type location scale s1).2 = ⟨hashLoc location⟩ :=
  ⟨rfl, rfl⟩

/-- C10: the generator seeds the global random state from hash(location) but
never draws from it, so the produced geometry is a function of
(tree_type, location, scale) alone and carries no seed-derived variation: a
tree at `loc` is exactly the tree at the origin translated by `loc`, whatever
random state either call starts from. -/
theorem create_tree_translation (tree_type : ℕ) (loc : Vec3) (scale : ℚ)
    (s1 s2 : RandomState) :
    (create_tree tree_type loc scale s1).1
      = translateTree loc ((create_tree tree_type (0, 0, 0) scale s2).1) := by
  obtain ⟨x, y, z⟩ := loc
  simp only [create_tree, translateTree]
  congr 1
  · simp [vadd]
  · rw [List.map_flatMap]
    congr 1
    funext level
    simp only [canopyLevel]
    rw [List.map_cons, List.map_map]
    congr 1
    · simp only [translateClump]
      congr 1 <;> ring
    · refine List.map_congr_left fun i _ => ?_
      simp only [Function.comp, translateClump]
      congr 1 <;> ring

/-- C9 counterexample: a run in which the export succeeds but writes a
zero-byte file exits with code 0 — the harness only checks that the file
exists and reports its byte size without verifying it is nonzero, so the
claimed verify-nonzero-size step does not happen. -/
theorem diagnostic_zero_size_passes :
    diagnosticExit ⟨1, false, true, 0⟩ = 0 := rfl

/-- C9 amended: the diagnostic harness performs a create-object then export
smoke test and verifies that the exported file exists (its byte size is
reported but not verified to be nonzero); it signals failure — no mesh
objects, export exception, or missing output file — via a non-zero process
exit code, while a run whose export succeeds and produces a file exits with
code zero. -/
theorem diagnostic_exit_spec (env : DiagEnv) :
    (env.meshTotal = 0 → diagnosticExit env = 1)
    ∧ (env.exportRaises = true → diagnosticExit env ≠ 0)
    ∧ (env.fileCreated = false → diagnosticExit env ≠ 0)
    ∧ (env.meshTotal ≠ 0 → env.exportRaises = false → env.fileCreated = true →
        diagnosticExit env = 0) := by
  unfold diagnosticExit
  split_ifs <;> simp_all

/-- Witness for C9 amended: a successful run with a 2048-byte artifact exits
with code zero. -/
theorem diagnostic_exit_spec_witness :
    (3 : ℕ) ≠ 0 ∧ diagnosticExit ⟨3, false, true, 2048⟩ = 0 :=
  ⟨by decide, (diagnostic_exit_spec ⟨3, false, true, 2048⟩).2.2.2 (by decide) rfl rfl⟩

/-- C6: the export pipeline tries the candidate formats in order and stops at
the first success; every per-format failure is caught and recorded and the
pipeline advances; if the first two candidates fail and the third succeeds,
the result carries the third format's artifact and exactly the two failures,
in candidate order, and later candidates are never attempted; when every
candidate fails, the pipeline terminates exhausted with all per-format
errors aggregated in candidate order. -/
theorem export_pipeline_fallback
    (attempt : String → Except String Artifact) (f1 f2 f3 : String)
    (rest : List String) (e1 e2 : String) (a : Artifact)
    (h1 : attempt f1 = .error e1) (h2 : attempt f2 = .error e2)
    (h3 : attempt f3 = .ok a) :
    runExportPipeline attempt (f1 :: f2 :: f3 :: rest)
      = .succeeded a [(f1, e1), (f2, e2)]
    ∧ ∀ (fs : List String) (err : String → String),
        (∀ f ∈ fs, attempt f = .error (err f)) →
        runExportPipeline attempt fs = .exhausted (fs.map (fun f => (f, err f))) := by
  constructor
  · simp [runExportPipeline, h1, h2, h3]
  · intro fs err hall
    induction fs with
    | nil => simp [runExportPipeline]
    | cons f t ih =>
      have hf : attempt f = .error (err f) := hall f (by simp)
      have ht : ∀ g ∈ t, attempt g = .error (err g) := fun g hg => hall g (by simp [hg])
      simp [runExportPipeline, hf, ih ht]

/-- Witness for C6: with the simulated attempt function failing on GLB and
FBX and succeeding on STL, the pipeline returns the STL artifact with the two
recorded failures in order. -/
theorem export_pipeline_fallback_witness :
    runExportPipeline demoAttempt ["GLB", "FBX", "STL"]
      = .succeeded ⟨"STL", "/tmp/out", 10⟩ [("GLB", "glb boom"), ("FBX", "fbx boom")] :=
  (export_pipeline_fallback demoAttempt "GLB" "FBX" "STL" [] "glb boom" "fbx boom"
    ⟨"STL", "/tmp/out", 10⟩ rfl rfl rfl).1

/-- C2 counterexample: with the script's bounds (0.010, 0.096), a face whose
vertex heights are 0.010, 0.010 and 0.050 — all inside the claimed half-open
interval [0.010, 0.096) — is excluded by the code, because the code's lower
comparison `v.co.z > 0.010` is strict: the lower bound is exclusive, not
inclusive. -/
theorem emboss_faces_lower_bound_strict :
    emboss_faces [seamFace] 0.010 0.096 = []
    ∧ halfOpenFaces [seamFace] 0.010 0.096 = [seamFace]
    ∧ seamFace ≠ [] := by
  refine ⟨?_, ?_, by simp [seamFace]⟩ <;>
    norm_num [emboss_faces, halfOpenFaces, seamFace, vz,
      List.filter_cons, List.all_cons]

/-- C2 amended: the region selector returns exactly the set of faces all of
whose vertices have height in the OPEN interval (min, max) — exclusive at
both the lower and the upper bound — and any face with at least one vertex
outside that open interval is excluded entirely. -/
theorem emboss_faces_open_interval (faces : List (List Vec3)) (zmin zmax : ℚ)
    (f : List Vec3) :
    f ∈ emboss_faces faces zmin zmax
      ↔ f ∈ faces ∧ ∀ v ∈ f, zmin < vz v ∧ vz v < zmax := by
  simp only [emboss_faces, List.mem_filter, List.all_eq_true, Bool.and_eq_true,
    decide_eq_true_eq]
  exact and_congr_right fun _ => forall₂_congr fun v _ => and_comm

/-- The two selection loops together set each object's selected flag to
whether its type is MESH. -/
theorem export_selection_eq (s : List SceneObj) :
    export_selection s
      = s.map (fun o => { o with selected := decide (o.kind = ObjKind.mesh) }) := by
  unfold export_selection select_meshes deselect_all
  rw [List.map_map]
  refine List.map_congr_left fun o _ => ?_
  by_cases h : o.kind = ObjKind.mesh <;> simp [Function.comp, h]

/-- C7: the selection filter selects exactly the mesh objects of the scene —
every selected object is a mesh, the selected count equals the mesh count,
the result is unchanged by adding non-mesh objects (lights, cameras), and
running the filter twice on an unchanged scene yields the same result. -/
theorem selection_filter_correct (s extra : List SceneObj)
    (hextra : ∀ o ∈ extra, o.kind ≠ ObjKind.mesh) :
    (∀ o ∈ selectedObjs (export_selection s), o.kind = ObjKind.mesh)
    ∧ (selectedObjs (export_selection s)).length = meshTally s
    ∧ export_selection (export_selection s) = export_selection s
    ∧ (selectedObjs (export_selection (s ++ extra))).length
        = (selectedObjs (export_selection s)).length := by
  refine ⟨?_, ?_, ?_, ?_⟩
  · intro o ho
    rw [selectedObjs, export_selection_eq, List.mem_filter, List.mem_map] at ho
    obtain ⟨⟨x, hx, rfl⟩, hsel⟩ := ho
    simpa using hsel
  · rw [export_selection_eq]
    unfold selectedObjs meshTally
    rw [← List.countP_eq_length_filter, ← List.countP_eq_length_filter,
      List.countP_map]
    rfl
  · rw [export_selection_eq (export_selection s), export_selection_eq s,
      List.map_map]
    exact List.map_congr_left fun o _ => by
      by_cases h : o.kind = ObjKind.mesh <;> simp [Function.comp, h]
  · rw [export_selection_eq (s ++ extra), export_selection_eq s]
    unfold selectedObjs
    rw [List.map_append, List.filter_append, List.length_append]
    have hz : ((extra.map fun o =>
          { o with selected := decide (o.kind = ObjKind.mesh) }).filter
            (fun o => o.selected)) = [] := by
      rw [List.filter_eq_nil_iff]
      intro o ho
      rw [List.mem_map] at ho
      obtain ⟨x, hx, rfl⟩ := ho
      simpa using hextra x hx
    rw [hz]
    simp

/-- Witness for C7: on the bottle-like scene of two meshes plus a light, with
a camera and another light appended, the filter selects exactly the two
meshes, independent of the appended non-mesh objects. -/
theorem selection_filter_correct_witness :
    (selectedObjs (export_selection demoScene)).length = meshTally demoScene
    ∧ (selectedObjs (export_selection (demoScene ++ demoExtra))).length
        = (selectedObjs (export_selection demoScene)).length := by
  have h := selection_filter_correct demoScene demoExtra (by decide)
  exact ⟨h.2.1, h.2.2.2⟩

/-- C8: the material builders probe the ordered socket-name lists (newer name
first) and assign the version-dependent parameter to the first name that
exists; when neither name exists the parameter is skipped and the rest of the
node graph is still completed identically. -/
theorem socket_probe_first_available (avail : List String) :
    ("Transmission Weight" ∈ avail →
        (make_plastic_material avail).setSockets
          = ["Base Color", "Roughness", "IOR", "Transmission Weight"])
    ∧ ("Transmission Weight" ∉ avail → "Transmission" ∈ avail →
        (make_plastic_material avail).setSockets
          = ["Base Color", "Roughness", "IOR", "Transmission"])
    ∧ ("Transmission Weight" ∉ avail → "Transmission" ∉ avail →
        (make_plastic_material avail).setSockets = ["Base Color", "Roughness", "IOR"])
    ∧ (make_plastic_material avail).nodes = plasticNodes
    ∧ (make_plastic_material avail).links = plasticLinks
    ∧ ("Subsurface Weight" ∈ avail →
        (create_leaf_material avail).setSockets
          = ["Base Color", "Roughness", "Subsurface Weight"])
    ∧ ("Subsurface Weight" ∉ avail → "Subsurface" ∈ avail →
        (create_leaf_material avail).setSockets
          = ["Base Color", "Roughness", "Subsurface"])
    ∧ ("Subsurface Weight" ∉ avail → "Subsurface" ∉ avail →
        (create_leaf_material avail).setSockets = ["Base Color", "Roughness"]) := by
  refine ⟨?_, ?_, ?_, rfl, rfl, ?_, ?_, ?_⟩
  · intro h
    simp [make_plastic_material, probeSocket, List.find?_cons, h]
  · intro h1 h2
    simp [make_plastic_material, probeSocket, List.find?_cons, h1, h2]
  · intro h1 h2
    simp [make_plastic_material, probeSocket, List.find?_cons, h1, h2]
  · intro h
    simp [create_leaf_material, probeSocket, List.find?_cons, h]
  · intro h1 h2
    simp [create_leaf_material, probeSocket, List.find?_cons, h1, h2]
  · intro h1 h2
    simp [create_leaf_material, probeSocket, List.find?_cons, h1, h2]

/-- Witness for C8: on a host exposing only the older names, the transmission
value goes to the older socket and the subsurface parameter is skipped. -/
theorem socket_probe_first_available_witness :
    (make_plastic_material ["Transmission"]).setSockets
        = ["Base Color", "Roughness", "IOR", "Transmission"]
    ∧ (create_leaf_material ["Transmission"]).setSockets
        = ["Base Color", "Roughness"] := by
  have h := socket_probe_first_available ["Transmission"]
  exact ⟨h.2.1 (by decide) (by decide),
    h.2.2.2.2.2.2.2 (by decide) (by decide)⟩

/-- A profile has at most as many poles as points. -/
theorem poleCount_le (ps : List (ℚ × ℚ)) : poleCount ps ≤ ps.length :=
  List.length_filter_le _ _

/-- Vertex count of the swept mesh: one pole vertex per zero-radius point and
one ring of `steps` vertices per other point. -/
theorem sweptVerts_length (ps : List (ℚ × ℚ)) (steps : ℕ) :
    (sweptVerts ps steps).length
      = steps * (ps.length - poleCount ps) + poleCount ps := by
  induction ps with
  | nil => simp [sweptVerts, poleCount]
  | cons p t ih =>
    have hle := poleCount_le t
    by_cases h : p.1 = 0
    · have h1 : poleCount (p :: t) = poleCount t + 1 := by
        simp [poleCount, List.filter_cons, h]
      have h2 : (sweptVerts (p :: t) steps).length
          = 1 + (sweptVerts t steps).length := by
        simp [sweptVerts, h, Nat.add_comm]
      rw [h1, h2, ih, List.length_cons]
      have h3 : t.length + 1 - (poleCount t + 1) = t.length - poleCount t := by
        omega
      rw [h3]
      generalize steps * (t.length - poleCount t) = A
      omega
    · have h1 : poleCount (p :: t) = poleCount t := by
        simp [poleCount, List.filter_cons, h]
      have h2 : (sweptVerts (p :: t) steps).length
          = steps + (sweptVerts t steps).length := by
        simp [sweptVerts, h, Nat.add_comm]
      rw [h1, h2, ih, List.length_cons]
      have h3 : t.length + 1 - poleCount t = (t.length - poleCount t) + 1 := by
        omega
      rw [h3, Nat.mul_add, Nat.mul_one]
      generalize steps * (t.length - poleCount t) = A
      omega

/-- C1: for every profile whose zero-radius points are exactly its first and
last points, swept with `steps ≥ 3` equal angular increments, the vertex
count of the resulting mesh is steps × (N − 2 poles) + 2, the two summed
terms being the ring vertices of the non-pole points and the two pole
vertices of the zero-radius endpoints. -/
theorem revolution_vertex_count (a b : ℚ) (mid : List (ℚ × ℚ)) (steps : ℕ)
    (hsteps : 3 ≤ steps) (hmid : ∀ p ∈ mid, p.1 ≠ 0) :
    (sweptVerts ((0, a) :: mid ++ [(0, b)]) steps).length
      = steps * (((0, a) :: mid ++ [(0, b)] : List (ℚ × ℚ)).length - 2) + 2 := by
  have hmid0 : mid.filter (fun p => decide (p.1 = 0)) = [] := by
    rw [List.filter_eq_nil_iff]
    intro p hp
    simpa using hmid p hp
  have hpc : poleCount ((0, a) :: mid ++ [(0, b)]) = 2 := by
    simp [poleCount, List.filter_cons, List.filter_append, hmid0]
  rw [sweptVerts_length, hpc]

/-- Witness for C1: the 17-point bottle profile swept at steps = 64 yields
64 × 15 + 2 = 962 vertices. -/
theorem revolution_vertex_count_witness :
    (sweptVerts profile_verts 64).length = 962 := by
  have hdec : profile_verts = (0, 0) :: bottleMid ++ [(0, 0.232)] := by
    norm_num [profile_verts, bottleMid]
  have h := revolution_vertex_count 0 0.232 bottleMid 64 (by norm_num)
    (by norm_num [bottleMid])
  rw [hdec, h]
  norm_num [bottleMid]

/-- Each canopy level contributes exactly four clumps. -/
theorem canopyLevel_length (location : Vec3) (p : TreeParams) (level : ℕ) :
    (canopyLevel location p level).length = 4 := by
  simp [canopyLevel]

/-- Length of a flatMap over an initial range with constant block length 4. -/
theorem length_flatMap_range_four {α : Type} (f : ℕ → List α)
    (hlen : ∀ x, (f x).length = 4) (n : ℕ) :
    ((List.range n).flatMap f).length = 4 * n := by
  induction n with
  | zero => simp
  | succ k ihk =>
    rw [List.range_succ, List.flatMap_append, List.length_append, ihk,
      List.flatMap_singleton, hlen]
    omega

/-- Indexing into a flatMap over a range with constant block length 4. -/
theorem getD_flatMap_range_four {α : Type} (f : ℕ → List α) (d : α)
    (hlen : ∀ x, (f x).length = 4) (n l j : ℕ) (hl : l < n) (hj : j < 4) :
    ((List.range n).flatMap f).getD (4 * l + j) d = (f l).getD j d := by
  induction n with
  | zero => omega
  | succ k ihk =>
    rw [List.range_succ, List.flatMap_append, List.flatMap_singleton]
    rcases Nat.lt_or_ge l k with h | h
    · rw [List.getD_append]
      · exact ihk h
      · rw [length_flatMap_range_four f hlen]
        omega
    · have hlk : l = k := by omega
      subst hlk
      rw [List.getD_append_right]
      · rw [length_flatMap_range_four f hlen]
        congr 1
        omega
      · rw [length_flatMap_range_four f hlen]
        omega

/-- C5 counterexample: for tree type 1 the main-clump radii at canopy levels
0, 1, 2 are 1.2, 1.08 and 0.96, whose consecutive ratios 0.9 and 8/9 differ,
so the clump radius does not shrink geometrically with level index (the code
shrinks it linearly: foliage_radius × (1 − 0.1 × level)). -/
theorem tree_radius_not_geometric :
    mainRadius demoTree 0 * mainRadius demoTree 2
      ≠ mainRadius demoTree 1 * mainRadius demoTree 1 := by
  have hm : ∀ l : ℕ, l < 4 → mainRadius demoTree l = 1.2 * (1 - (l : ℚ) * 0.1) := by
    intro l hl
    unfold mainRadius demoTree
    have hcl : (create_tree 1 (0, 0, 0) 1 ⟨0⟩).1.clumps
        = (List.range (treeTable 1 1).levels).flatMap
            (canopyLevel (0, 0, 0) (treeTable 1 1)) := rfl
    have hlev : (treeTable 1 1).levels = 4 := rfl
    rw [hcl, hlev]
    have h0 := getD_flatMap_range_four (canopyLevel (0, 0, 0) (treeTable 1 1)) cdef
      (canopyLevel_length (0, 0, 0) (treeTable 1 1)) 4 l 0 hl (by omega)
    rw [Nat.add_zero] at h0
    rw [h0]
    simp only [canopyLevel, List.getD_cons_zero]
    norm_num [treeTable]
  rw [hm 0 (by omega), hm 1 (by omega), hm 2 (by omega)]
  norm_num

/-- C5 amended: every generated tree has exactly 1 trunk plus levels × 4
foliage clumps; per vertical band the main clump sits on the trunk axis (zero
horizontal offset) and the three side clumps sit at i × 120-degree angles
with horizontal offset 0.7 × the foliage radius; the clump radius shrinks
LINEARLY with the level index — foliage_radius × (1 − 0.1 × level) for the
main clump and foliage_radius × 0.6 × (1 − 0.15 × level) for the side
clumps — not geometrically. -/
theorem tree_parts_structure (tree_type : ℕ) (location : Vec3) (scale : ℚ)
    (st : RandomState) (l i : ℕ)
    (hl : l < (treeTable tree_type scale).levels) (hi : i < 3) :
    ((create_tree tree_type location scale st).1.clumps.length
        = (treeTable tree_type scale).levels * 4)
    ∧ ((create_tree tree_type location scale st).1.clumps.getD (4 * l) cdef).offsetMag
        = 0
    ∧ ((create_tree tree_type location scale st).1.clumps.getD (4 * l) cdef).radius
        = (treeTable tree_type scale).foliageR * (1 - (l : ℚ) * 0.1)
    ∧ ((create_tree tree_type location scale st).1.clumps.getD
          (4 * l + 1 + i) cdef).angleDeg = (i : ℚ) * 120
    ∧ ((create_tree tree_type location scale st).1.clumps.getD
          (4 * l + 1 + i) cdef).offsetMag = (treeTable tree_type scale).foliageR * 0.7
    ∧ ((create_tree tree_type location scale st).1.clumps.getD
          (4 * l + 1 + i) cdef).radius
        = (treeTable tree_type scale).foliageR * 0.6 * (1 - (l : ℚ) * 0.15) := by
  have hcl : (create_tree tree_type location scale st).1.clumps
      = (List.range (treeTable tree_type scale).levels).flatMap
          (canopyLevel location (treeTable tree_type scale)) := rfl
  have hlen := canopyLevel_length location (treeTable tree_type scale)
  have hmain := getD_flatMap_range_four
    (canopyLevel location (treeTable tree_type scale)) cdef hlen _ l 0 hl (by omega)
  rw [Nat.add_zero] at hmain
  have hidx : 4 * l + 1 + i = 4 * l + (i + 1) := by omega
  have hside := getD_flatMap_range_four
    (canopyLevel location (treeTable tree_type scale)) cdef hlen _ l (i + 1) hl
    (by omega)
  have hget : (canopyLevel location (treeTable tree_type scale) l).getD (i + 1) cdef
      = ((List.range 3).map (fun (k : ℕ) =>
          (⟨location.1, location.2.1,
            location.2.2 + (treeTable tree_type scale).trunkH * 0.5
              + (l : ℚ) * (treeTable tree_type scale).foliageH
                / (((treeTable tree_type scale).levels : ℕ) : ℚ),
            (k : ℚ) * 120, (treeTable tree_type scale).foliageR * 0.7,
            (treeTable tree_type scale).foliageR * 0.6 * (1 - (l : ℚ) * 0.15),
            (treeTable tree_type scale).foliageR * 0.6 * (1 - (l : ℚ) * 0.15) * 0.15,
            (treeTable tree_type scale).leaf⟩ : Clump))).getD i cdef := by
    simp only [canopyLevel, List.getD_cons_succ]
  have hmap : ((List.range 3).map (fun (k : ℕ) =>
        (⟨location.1, location.2.1,
          location.2.2 + (treeTable tree_type scale).trunkH * 0.5
            + (l : ℚ) * (treeTable tree_type scale).foliageH
              / (((treeTable tree_type scale).levels : ℕ) : ℚ),
          (k : ℚ) * 120, (treeTable tree_type scale).foliageR * 0.7,
          (treeTable tree_type scale).foliageR * 0.6 * (1 - (l : ℚ) * 0.15),
          (treeTable tree_type scale).foliageR * 0.6 * (1 - (l : ℚ) * 0.15) * 0.15,
          (treeTable tree_type scale).leaf⟩ : Clump))).getD i cdef
      = ⟨location.1, location.2.1,
          location.2.2 + (treeTable tree_type scale).trunkH * 0.5
            + (l : ℚ) * (treeTable tree_type scale).foliageH
              / (((treeTable tree_type scale).levels : ℕ) : ℚ),
          (i : ℚ) * 120, (treeTable tree_type scale).foliageR * 0.7,
          (treeTable tree_type scale).foliageR * 0.6 * (1 - (l : ℚ) * 0.15),
          (treeTable tree_type scale).foliageR * 0.6 * (1 - (l : ℚ) * 0.15) * 0.15,
          (treeTable tree_type scale).leaf⟩ := by
    rw [List.getD_eq_getElem?_getD, List.getElem?_map, List.getElem?_range hi]
    rfl
  refine ⟨?_, ?_, ?_, ?_, ?_, ?_⟩
  · rw [hcl, length_flatMap_range_four _ hlen]
    omega
  · rw [hcl, hmain]
    simp only [canopyLevel, List.getD_cons_zero]
  · rw [hcl, hmain]
    simp only [canopyLevel, List.getD_cons_zero]
  · rw [hcl, hidx, hside, hget, hmap]
  · rw [hcl, hidx, hside, hget, hmap]
  · rw [hcl, hidx, hside, hget, hmap]

/-- Witness for C5 amended: the type-2 tree has 3 × 4 clumps and its level-1
third side clump carries the 0.7 × foliage-radius offset. -/
theorem tree_parts_structure_witness :
    ((create_tree 2 (0, 0, 0) 1 ⟨0⟩).1.clumps.length = (treeTable 2 1).levels * 4)
    ∧ ((create_tree 2 (0, 0, 0) 1 ⟨0⟩).1.clumps.getD 7 cdef).offsetMag
        = (treeTable 2 1).foliageR * 0.7 := by
  have h := tree_parts_structure 2 (0, 0, 0) 1 ⟨0⟩ 1 2 (by decide) (by decide)
  exact ⟨h.1, by simpa using h.2.2.2.2.1⟩

/-- A flatMap all of whose blocks are singletons is a map. -/
theorem flatMap_eq_map {α β : Type} (l : List α) (f : α → List β) (g : α → β)
    (h : ∀ x ∈ l, f x = [g x]) : l.flatMap f = l.map g := by
  induction l with
  | nil => rfl
  | cons a t ih =>
    rw [List.flatMap_cons, h a (by simp), ih (fun x hx => h x (by simp [hx])),
      List.map_cons]
    rfl

/-- A face loop none of whose edges was subdivided is returned unchanged by
edge subdivision. -/
theorem subdivFace_of_disjoint (E : List (ℕ × ℕ)) (c nV : ℕ) (f : List ℕ)
    (h : ∀ e ∈ faceEdges f, normE e ∉ E) :
    subdivFace E c nV f = f := by
  unfold subdivFace
  have hcut : ∀ ab ∈ f.zip (f.rotate 1), cutIdx E c nV ab.1 ab.2 = [] := by
    intro ab hab
    have hne : normE (ab.1, ab.2) ∉ E := by
      have hs := h ab hab
      simpa using hs
    unfold cutIdx
    have hfi : E.findIdx? (fun e => decide (e = normE (ab.1, ab.2))) = none := by
      rw [List.findIdx?_eq_none_iff]
      intro x hx
      simp only [decide_eq_false_iff_not]
      exact fun hxe => hne (hxe ▸ hx)
    rw [hfi]
  rw [flatMap_eq_map _ _ Prod.fst (fun ab hab => by rw [hcut ab hab])]
  exact List.map_fst_zip f (f.rotate 1) (by rw [List.length_rotate])

/-- The inset of one face only appends vertices. -/
theorem insetOne_verts (t d : ℚ) (acc : List Vec3 × List (List ℕ))
    (sf : List ℕ) : ∃ new, (insetOne t d acc sf).1 = acc.1 ++ new :=
  ⟨_, rfl⟩

/-- Insetting a list of faces only appends vertices. -/
theorem foldl_insetOne_verts (t d : ℚ) (l : List (List ℕ))
    (acc : List Vec3 × List (List ℕ)) :
    ∃ tail, (l.foldl (insetOne t d) acc).1 = acc.1 ++ tail := by
  induction l generalizing acc with
  | nil => exact ⟨[], by simp⟩
  | cons sf rest ih =>
    obtain ⟨n1, h1⟩ := insetOne_verts t d acc sf
    obtain ⟨e, he⟩ := ih (insetOne t d acc sf)
    exact ⟨n1 ++ e, by rw [List.foldl_cons, he, h1, List.append_assoc]⟩

/-- C3 counterexample: in `demoMesh` the face [1, 4, 5, 2] is NOT selected by
the emboss bounds (two of its vertices lie above the band), yet after the
emboss step it no longer occurs in the mesh: it shares the edge (1, 2) with
the selected face, so subdividing the selected faces' edges inserts cut
vertices into its loop — a face outside the selected region is changed. -/
theorem emboss_touches_boundary_face :
    [1, 4, 5, 2] ∈ demoMesh.faces
    ∧ selP demoMesh 10 96 [1, 4, 5, 2] = false
    ∧ [1, 4, 5, 2] ∉ (embossStep demoMesh 10 96 2 2 (-1)).faces := by
  refine ⟨by decide, by decide, by decide⟩

/-- C3 amended: the emboss step never moves or removes a pre-existing vertex
(it only appends new ones, so positions of non-selected vertices are
unchanged), the subdivided non-selected faces form a prefix of the resulting
face list (their count is unchanged), and every non-selected face that shares
no edge with a selected face keeps its loop identically; however, a
non-selected face that shares a subdivided edge with the selected region has
that edge's cut vertices inserted into its loop, so its connectivity is NOT
identical before and after. -/
theorem emboss_outside_region (m : Mesh) (zmin zmax : ℚ) (c : ℕ) (t d : ℚ) :
    (∃ tail, (embossStep m zmin zmax c t d).verts = m.verts ++ tail)
    ∧ (∃ rest, (embossStep m zmin zmax c t d).faces
        = (nonselFaces m zmin zmax).map
            (subdivFace (selEdges m zmin zmax) c m.verts.length) ++ rest)
    ∧ (∀ f, (∀ e ∈ faceEdges f, normE e ∉ selEdges m zmin zmax) →
        subdivFace (selEdges m zmin zmax) c m.verts.length f = f) := by
  refine ⟨?_, ?_, fun f hf => subdivFace_of_disjoint _ c m.verts.length f hf⟩
  · unfold embossStep
    split_ifs with hs
    · exact ⟨[], by simp⟩
    · obtain ⟨e, he⟩ := foldl_insetOne_verts t d
        ((selFaces m zmin zmax).map
          (subdivFace (selEdges m zmin zmax) c m.verts.length))
        (m.verts ++ (selEdges m zmin zmax).flatMap (cutPoints m c), [])
      exact ⟨(selEdges m zmin zmax).flatMap (cutPoints m c) ++ e,
        he.trans (List.append_assoc _ _ _)⟩
  · unfold embossStep
    split_ifs with hs
    · have hsel : selEdges m zmin zmax = [] := by
        unfold selEdges
        rw [hs]
        rfl
      have hnon : nonselFaces m zmin zmax = m.faces := by
        unfold nonselFaces
        rw [List.filter_eq_self]
        intro a ha
        unfold selFaces at hs
        have hfa := List.filter_eq_nil_iff.mp hs a ha
        simpa using hfa
      refine ⟨[], ?_⟩
      rw [List.append_nil, hsel, hnon]
      exact ((List.map_congr_left fun f _ =>
        subdivFace_of_disjoint [] c m.verts.length f
          fun e _ => List.not_mem_nil (normE e)).trans (List.map_id _)).symm
    · exact ⟨_, rfl⟩

/-- Witness for C3 amended: in `demoMesh` the far-away face [6, 7, 8, 9]
shares no edge with the selected region and is returned unchanged by edge
subdivision. -/
theorem emboss_outside_region_witness :
    (∀ e ∈ faceEdges [6, 7, 8, 9], normE e ∉ selEdges demoMesh 10 96)
    ∧ subdivFace (selEdges demoMesh 10 96) 2 demoMesh.verts.length [6, 7, 8, 9]
        = [6, 7, 8, 9] := by
  constructor
  · decide
  · exact (emboss_outside_region demoMesh 10 96 2 2 (-1)).2.2 [6, 7, 8, 9] (by decide)

end BlenderCli
